import Mathlib

/-!
Verification of the arrakis chat client's connection/session protocol layer.

The development shallowly embeds the TypeScript source (`src/index.tsx`):
the zod schemas become Lean structures and parsers over a small JSON value
type, the `ws.onmessage` handler becomes a pure state-transition function,
the optimistic submit (`sendPrompt`), the fork/regenerate click handler and
the reconnect bookkeeping of `useWebSocket.connect` become pure functions
over explicit state.
-/

namespace Arrakis

/-- `message_type` values of `MessageSchema` (z.enum ["System","User","Assistant"]). -/
inductive Role where
  | System : Role
  | User : Role
  | Assistant : Role
deriving DecidableEq, Repr

/-- Provider/model selection (`APISchema`). The source constrains the pair by a
discriminated union of enums; `parseAPI` below enforces the same pairs. -/
structure API where
  provider : String
  model : String
deriving DecidableEq, Repr

/-- One turn of a conversation (`MessageSchema`). -/
structure Message where
  id : Option Int
  message_type : Role
  content : String
  api : API
  system_prompt : String
  sequence : Int
deriving DecidableEq, Repr

/-- An ordered message log plus identity (`ConversationSchema`). -/
structure Conversation where
  id : Option Int
  name : String
  messages : List Message
deriving DecidableEq, Repr

/-- Payload of a `Completion` response frame (`CompletionResponseSchema`). -/
structure CompletionResponse where
  stream : Bool
  delta : String
  name : String
  conversationId : Int
  requestId : Int
  responseId : Int
deriving DecidableEq, Repr

/-- Connection status as actually held by the hook's `useState`
(`'connected' | 'disconnected'`, initial `'disconnected'`). -/
inductive ConnStatus where
  | connected : ConnStatus
  | disconnected : ConnStatus
deriving DecidableEq, Repr

/-- Outbound requests (`ArrakisRequestSchema`), one constructor per method. -/
inductive ArrakisRequest where
  | conversationList : ArrakisRequest
  | ping : String → ArrakisRequest
  | completion : Conversation → ArrakisRequest
  | load : Int → ArrakisRequest
  | systemPromptReq : String → Bool → ArrakisRequest
  | fork : Int → Int → ArrakisRequest
deriving DecidableEq, Repr

/-- JSON-ish values as produced by `JSON.parse`, with `undefined` standing for the
JavaScript `undefined` returned by a missing property access. -/
inductive JVal where
  | undefined : JVal
  | null : JVal
  | bool : Bool → JVal
  | num : Int → JVal
  | str : String → JVal
  | arr : List JVal → JVal
  | obj : List (String × JVal) → JVal
deriving Repr

/-- Property access `v[key]`: `undefined` when absent or when `v` is not an object. -/
def jlookup (v : JVal) (key : String) : JVal :=
  match v with
  | .obj fields =>
    match fields.lookup key with
    | some w => w
    | none => .undefined
  | _ => .undefined

/-- The discriminator the handler actually reads: `response.payload.method`
(note: the source reads the tag from the payload, not from the frame root). -/
def jmethod (frame : JVal) : Option String :=
  match jlookup (jlookup frame "payload") "method" with
  | .str s => some s
  | _ => none

def jstring? : JVal → Option String
  | .str s => some s
  | _ => none

def jint? : JVal → Option Int
  | .num n => some n
  | _ => none

def jbool? : JVal → Option Bool
  | .bool b => some b
  | _ => none

/-- `z.number().nullable()`. -/
def jnullableInt? : JVal → Option (Option Int)
  | .num n => some (some n)
  | .null => some none
  | _ => none

def openaiModels : List String :=
  ["gpt-4o", "gpt-4o-mini", "o1-preview", "o1-mini"]

def groqModels : List String :=
  ["llama3-70b-8192"]

def anthropicModels : List String :=
  ["claude-3-opus-20240229", "claude-3-sonnet-20240229", "claude-3-haiku-20240307",
   "claude-3-5-sonnet-latest", "claude-3-5-haiku-latest"]

/-- `APISchema.parse`: provider-discriminated union of model enums. -/
def parseAPI (v : JVal) : Option API := do
  let provider ← jstring? (jlookup v "provider")
  let model ← jstring? (jlookup v "model")
  let allowed ←
    match provider with
    | "openai" => some openaiModels
    | "groq" => some groqModels
    | "anthropic" => some anthropicModels
    | _ => none
  if model ∈ allowed then pure { provider := provider, model := model } else none

def parseRole : JVal → Option Role
  | .str "System" => some .System
  | .str "User" => some .User
  | .str "Assistant" => some .Assistant
  | _ => none

/-- `MessageSchema.parse` (unknown keys are stripped, as zod does). -/
def parseMessage (v : JVal) : Option Message := do
  let mt ← parseRole (jlookup v "message_type")
  let mid ← jnullableInt? (jlookup v "id")
  let content ← jstring? (jlookup v "content")
  let api ← parseAPI (jlookup v "api")
  let sp ← jstring? (jlookup v "system_prompt")
  let seq ← jint? (jlookup v "sequence")
  pure { id := mid, message_type := mt, content := content, api := api,
         system_prompt := sp, sequence := seq }

/-- `ConversationSchema.parse`. -/
def parseConversation (v : JVal) : Option Conversation := do
  let cid ← jnullableInt? (jlookup v "id")
  let name ← jstring? (jlookup v "name")
  let msgs ←
    match jlookup v "messages" with
    | .arr xs => xs.mapM parseMessage
    | _ => none
  pure { id := cid, name := name, messages := msgs }

/-- `ConversationListResponseSchema.parse`, projected to its only field. -/
def parseConversationList (v : JVal) : Option (List Conversation) :=
  match jlookup v "conversations" with
  | .arr xs => xs.mapM parseConversation
  | _ => none

/-- `CompletionResponseSchema.parse`. -/
def parseCompletionResponse (v : JVal) : Option CompletionResponse := do
  let stream ← jbool? (jlookup v "stream")
  let delta ← jstring? (jlookup v "delta")
  let name ← jstring? (jlookup v "name")
  let conversationId ← jint? (jlookup v "conversationId")
  let requestId ← jint? (jlookup v "requestId")
  let responseId ← jint? (jlookup v "responseId")
  pure { stream := stream, delta := delta, name := name,
         conversationId := conversationId, requestId := requestId,
         responseId := responseId }

/-- The `Completion` branch of `ws.onmessage` as a function of the previous
conversation (`prev`) and the parsed completion payload. Mirrors:
`newMessages = lcm.slice(0, lcm.length - 1)`; `last = lcm[lcm.length - 1]`;
`last.content += delta`; `last.id = responseId`;
`newMessages[newMessages.length - 1].id = requestId`; `newMessages.push(last)`;
result `{id: conversationId, name, messages: newMessages}`. The two pattern
matches guard exactly the two element accesses that are `undefined` (and make
the merge throw) when the list is too short. -/
def mergeCompletion (prev : Conversation) (c : CompletionResponse) : Option Conversation :=
  match prev.messages.getLast? with
  | none => none
  | some lastm =>
    match prev.messages.dropLast.getLast? with
    | none => none
    | some stl =>
      let stl' := { stl with id := some c.requestId }
      let lastm' := { lastm with content := lastm.content ++ c.delta, id := some c.responseId }
      some { id := some c.conversationId, name := c.name,
             messages := (prev.messages.dropLast.dropLast ++ [stl']) ++ [lastm'] }

/-- Receipt-order application of a sequence of completion payloads; `none` as
soon as one merge cannot complete. -/
def applyCompletions (conv : Conversation) : List CompletionResponse → Option Conversation
  | [] => some conv
  | c :: cs =>
    match mergeCompletion conv c with
    | some conv' => applyCompletions conv' cs
    | none => none

/-- Concatenation of the delta strings of a frame sequence, in receipt order. -/
def concatDeltas (cs : List CompletionResponse) : String :=
  cs.foldr (fun c acc => c.delta ++ acc) ""

/-- The observable client state surfaced by `useWebSocket` that `ws.onmessage`
can touch. `systemPrompt` is kept as a `JVal` because the `SystemPrompt` branch
assigns `response.payload.content` without validation (it may be `undefined`). -/
structure ClientState where
  loadedConversation : Conversation
  conversations : List Conversation
  systemPrompt : JVal
  connectionStatus : ConnStatus
deriving Repr

/-- The `ws.onmessage` handler as one atomic state transition per frame.
Dispatch reads `response.payload.method` (see `jmethod`); a branch whose
zod `parse` throws is caught by the surrounding try/catch and leaves the
state unchanged, as does a frame matching no branch. -/
def handleMessage (st : ClientState) (frame : JVal) : ClientState :=
  let payload := jlookup frame "payload"
  if jmethod frame = some "Completion" then
    match parseCompletionResponse payload with
    | some completion =>
      match mergeCompletion st.loadedConversation completion with
      | some conv => { st with loadedConversation := conv }
      | none => st
    | none => st
  else if jmethod frame = some "Ping" then
    if st.connectionStatus ≠ ConnStatus.connected then
      { st with connectionStatus := ConnStatus.connected }
    else st
  else if jmethod frame = some "ConversationList" then
    match parseConversationList payload with
    | some cs => { st with conversations := cs }
    | none => st
  else if jmethod frame = some "Load" then
    match parseConversation payload with
    | some conv => { st with loadedConversation := conv }
    | none => st
  else if jmethod frame = some "SystemPrompt" then
    { st with systemPrompt := jlookup payload "content" }
  else
    st

/-- `MainPage.sendPrompt`, chat-submit branch, as a function of the loaded
conversation, the selected model and the entered text. Returns the new
conversation state and the requests handed to `sendMessage`. Mirrors:
empty text returns early; otherwise two messages are appended whose `id`s are
`messages[len-1].id! + 1` / `+ 2` when the conversation is non-empty (JS `null`
coerces to `0` under `+`) and `null` when it is empty, with `sequence`s
`len` and `len + 1`; the extended conversation is stored and sent as a
`Completion` request. -/
def sendPrompt (conv : Conversation) (model : API) (data : String) :
    Conversation × List ArrakisRequest :=
  if data.length = 0 then (conv, [])
  else
    let messages := conv.messages
    let baseId : Option Int :=
      match messages.getLast? with
      | some lastm => some (lastm.id.getD 0)
      | none => none
    let userMsg : Message :=
      { id := baseId.map (· + 1), content := data, message_type := Role.User,
        api := model, system_prompt := "", sequence := (messages.length : Int) }
    let assistantMsg : Message :=
      { id := baseId.map (· + 2), content := "", message_type := Role.Assistant,
        api := model, system_prompt := "", sequence := (messages.length : Int) + 1 }
    let newConversation := { conv with messages := messages ++ [userMsg, assistantMsg] }
    (newConversation, [ArrakisRequest.completion newConversation])

/-- The `Regenerate` onClick handler. Mirrors: first
`ForkRequestSchema.parse({conversationId, sequence})` (throws before anything
else when the conversation `id` is `null`, leaving state unchanged and sending
nothing); then `messages.slice(0, sequence + 1)`; then the trailing element of
the truncated list is reset in place to an empty Assistant placeholder carrying
the current system prompt and model (`sequence` untouched); when the truncated
list is empty the `last.content = ...` assignment throws after the request was
already sent, so the conversation is left unchanged in that case. -/
def forkClick (conv : Conversation) (k : Nat) (sysPrompt : String) (model : API) :
    Conversation × List ArrakisRequest :=
  match conv.id with
  | none => (conv, [])
  | some cid =>
    let req := ArrakisRequest.fork cid (k : Int)
    let msgs := conv.messages.take (k + 1)
    match msgs.getLast? with
    | none => (conv, [req])
    | some lastm =>
      let lastm' : Message :=
        { id := none, message_type := Role.Assistant, content := "",
          api := model, system_prompt := sysPrompt, sequence := lastm.sequence }
      ({ conv with messages := msgs.dropLast ++ [lastm'] }, [req])

/-- Retry/status bookkeeping of `useWebSocket.connect`. `retryCount` is the
live `useState` counter. `capturedRetryCount` is the `retryCount` value closed
over by the current socket's `onclose` callback: `connect` is a `useCallback`,
so its callbacks see the counter of the render that created them, and the
reconnect timer re-invokes that same stale `connect`, handing the same
captured value to the next socket's callbacks. -/
structure SessionState where
  connectionStatus : ConnStatus
  retryCount : Nat
  capturedRetryCount : Nat
  errorFlag : Bool
deriving DecidableEq, Repr

/-- Socket lifecycle events feeding `connect`'s callbacks. -/
inductive SessionEvent where
  | sockOpen : SessionEvent
  | sockError : SessionEvent
  | sockClose : SessionEvent
deriving DecidableEq, Repr

/-- Whether `ws.onclose` schedules a reconnect: the `retryCount < maxRetries`
guard around `setTimeout`, which tests the closure's captured counter, not the
live one. -/
def closeSchedulesRetry (maxRetries : Nat) (s : SessionState) : Bool :=
  decide (s.capturedRetryCount < maxRetries)

/-- One socket event applied to the session state. `ws.onopen` sets status
`connected`, clears the error and resets the live retry counter; `ws.onerror`
records an error; `ws.onclose` sets status `disconnected` and, when the
counter value captured by the closure is below `maxRetries`, schedules a
reconnect whose timer increments the live counter
(`setRetryCount(prev => prev + 1)`) and calls the same stale `connect()`
again, so the next socket's callbacks close over the unchanged captured
value. (Each counter change also recreates `connect` and re-runs the connect
effect with a fresher capture, opening further sockets in parallel; that
duplication only adds reconnect attempts and is outside this single-chain
model.) -/
def sessionStep (maxRetries : Nat) (s : SessionState) : SessionEvent → SessionState
  | .sockOpen =>
    { s with connectionStatus := ConnStatus.connected, errorFlag := false, retryCount := 0 }
  | .sockError => { s with errorFlag := true }
  | .sockClose =>
    if s.capturedRetryCount < maxRetries then
      { s with connectionStatus := ConnStatus.disconnected, retryCount := s.retryCount + 1 }
    else
      { s with connectionStatus := ConnStatus.disconnected }

/-- Initial hook state at mount: the connect effect runs once with the initial
`retryCount = 0` captured by the first socket's callbacks. -/
def initialSession : SessionState :=
  { connectionStatus := ConnStatus.disconnected, retryCount := 0,
    capturedRetryCount := 0, errorFlag := false }

/-- The session state reached after a sequence of socket events. -/
def runSession (maxRetries : Nat) (events : List SessionEvent) : SessionState :=
  events.foldl (sessionStep maxRetries) initialSession

/-- Default API selection of `MainPage` (`useState<API>`). -/
def defaultAPI : API :=
  { provider := "anthropic", model := "claude-3-5-sonnet-latest" }

/-- Convenience constructor for concrete messages. -/
def mkMessage (mid : Option Int) (r : Role) (content : String) (seq : Int) : Message :=
  { id := mid, message_type := r, content := content, api := defaultAPI,
    system_prompt := "", sequence := seq }

/-- The in-place mutation `newMessages[newMessages.length - 1].id = requestId`
applied to the second-to-last message. -/
def bumpSecondLast (c : CompletionResponse) (m : Message) : Message :=
  { m with id := some c.requestId }

/-- The in-place mutations `last.content += delta; last.id = responseId`
applied to the trailing message. -/
def bumpLast (c : CompletionResponse) (m : Message) : Message :=
  { m with content := m.content ++ c.delta, id := some c.responseId }

/-- A pending trailing Assistant placeholder (empty content, null id). -/
def c1pending : Message := mkMessage none Role.Assistant "" 1

/-- A conversation holding only a pending trailing Assistant message. -/
def c1solo : Conversation :=
  { id := none, name := "c", messages := [mkMessage none Role.Assistant "" 0] }

/-- An optimistic two-message pair awaiting its first delta. -/
def c1conv : Conversation :=
  { id := none, name := "t1", messages := [mkMessage none Role.User "hello" 0, c1pending] }

def c1resp : CompletionResponse :=
  { stream := true, delta := "Hi ", name := "n1", conversationId := 3, requestId := 1,
    responseId := 2 }

def c1resp2 : CompletionResponse :=
  { stream := true, delta := "there", name := "n1", conversationId := 3, requestId := 1,
    responseId := 2 }

def c2conv : Conversation :=
  { id := none, name := "t2", messages := [mkMessage none Role.User "hello" 0, mkMessage none Role.Assistant "" 1] }

def c2resp : CompletionResponse :=
  { stream := true, delta := "Hi", name := "x", conversationId := 5, requestId := 10,
    responseId := 11 }

/-- The conversation the spec's Completion scenario expects after the merge. -/
def c2result : Conversation :=
  { id := some 5, name := "x", messages := [mkMessage (some 10) Role.User "hello" 0, mkMessage (some 11) Role.Assistant "Hi" 1] }

def emptyConv : Conversation := { id := none, name := "t0", messages := [] }

/-- A non-empty conversation whose last message already has a server id. -/
def c4conv : Conversation :=
  { id := some 1, name := "t4", messages := [mkMessage (some 5) Role.User "a" 0] }

/-- A three-message conversation used to exercise the fork cut. -/
def c5conv : Conversation :=
  { id := some 1, name := "t5", messages := [mkMessage (some 1) Role.User "q" 0, mkMessage (some 2) Role.Assistant "r" 1, mkMessage (some 3) Role.User "s" 2] }

/-- A fresh client state: default conversation, empty directory, empty prompt,
status `disconnected`. -/
def st0 : ClientState :=
  { loadedConversation := { id := none, name := "fresh", messages := [] },
    conversations := [], systemPrompt := JVal.str "", connectionStatus := ConnStatus.disconnected }

/-- The documented wire form of a Ping response: `method` at the frame root,
payload `{body: "ping"}`. -/
def pingFrame : JVal :=
  .obj [("method", .str "Ping"), ("payload", .obj [("body", .str "ping")])]

/-- A `Load` frame (tag read from the payload) carrying a valid conversation. -/
def loadFrame : JVal :=
  .obj [("method", .str "Load"),
        ("payload", .obj [("method", .str "Load"), ("id", .num 7), ("name", .str "x"), ("messages", .arr [])])]

/-- A frame whose payload carries an unrecognized method tag. -/
def bogusFrame : JVal :=
  .obj [("method", .str "Ping"),
        ("payload", .obj [("method", .str "Pong"), ("body", .str "ping")])]

/-- Any list of length at least two splits off its last two elements. -/
theorem exists_concat_two {α : Type u} (l : List α) (h : 2 ≤ l.length) :
    ∃ (ms : List α) (a b : α), l = ms ++ [a, b] := by
  rcases hr : l.reverse with _ | ⟨b, _ | ⟨a, r⟩⟩
  · have hl : l.length = 0 := by simpa using congrArg List.length hr
    omega
  · have hl : l.length = 1 := by simpa using congrArg List.length hr
    omega
  · refine ⟨r.reverse, a, b, ?_⟩
    have h2 := congrArg List.reverse hr
    simpa using h2

/-- Splitting `ms ++ [a, b]` as a concatenation with a singleton. -/
theorem concat_two_eq {α : Type u} (ms : List α) (a b : α) :
    ms ++ [a, b] = (ms ++ [a]) ++ [b] := by
  simp

/-- Characterization of the Completion merge on a conversation with at least
two messages: the prefix is preserved, the second-to-last message receives
`requestId`, the trailing message accumulates the delta and receives
`responseId`, and the conversation identity is adopted from the response. -/
theorem mergeCompletion_eq (conv : Conversation) (c : CompletionResponse)
    (ms : List Message) (a b : Message) (hab : conv.messages = ms ++ [a, b]) :
    mergeCompletion conv c =
      some { id := some c.conversationId, name := c.name,
             messages := ms ++ [bumpSecondLast c a, bumpLast c b] } := by
  have hab2 : conv.messages = (ms ++ [a]) ++ [b] := by rw [hab, concat_two_eq]
  simp only [mergeCompletion, hab2, List.getLast?_concat, List.dropLast_concat]
  simp [bumpSecondLast, bumpLast]

/-- Applying a frame sequence to a conversation with at least two messages
succeeds, preserves the message count, and appends the concatenated deltas to
the trailing message content. -/
theorem applyCompletions_getLast (cs : List CompletionResponse) :
    ∀ conv : Conversation, 2 ≤ conv.messages.length →
      ∃ conv', applyCompletions conv cs = some conv' ∧
        conv'.messages.length = conv.messages.length ∧
        Option.map Message.content conv'.messages.getLast? =
          Option.map (fun m => m.content ++ concatDeltas cs) conv.messages.getLast? := by
  induction cs with
  | nil =>
    intro conv h
    refine ⟨conv, rfl, rfl, ?_⟩
    simp [concatDeltas]
  | cons c cs ih =>
    intro conv h
    obtain ⟨ms, a, b, hab⟩ := exists_concat_two conv.messages h
    have hm := mergeCompletion_eq conv c ms a b hab
    obtain ⟨conv', h1, h2, h3⟩ :=
      ih { id := some c.conversationId, name := c.name,
           messages := ms ++ [bumpSecondLast c a, bumpLast c b] }
        (by simp)
    refine ⟨conv', ?_, ?_, ?_⟩
    · simp only [applyCompletions, hm]
      exact h1
    · rw [h2, hab]
      simp
    · rw [h3, hab]
      simp only [concat_two_eq, List.getLast?_concat, Option.map_some]
      simp [bumpLast, concatDeltas, String.append_assoc]

/-- C10: the Completion merge indexes the last and the second-to-last message,
so it completes normally exactly when the conversation has at least two
messages; with fewer the accesses fall outside the list and the merge cannot
complete, and under the two-message precondition the error branch is
unreachable. -/
theorem mergeCompletion_isSome_iff (conv : Conversation) (c : CompletionResponse) :
    (mergeCompletion conv c).isSome ↔ 2 ≤ conv.messages.length := by
  obtain ⟨i, n, msgs⟩ := conv
  cases msgs with
  | nil => simp [mergeCompletion]
  | cons x xs =>
    cases xs with
    | nil => simp [mergeCompletion]
    | cons y ys =>
      have hlen : 2 ≤ (x :: y :: ys).length := by
        simp only [List.length_cons]
        omega
      constructor
      · intro _
        exact hlen
      · intro _
        obtain ⟨ms, a, b, hab⟩ := exists_concat_two (x :: y :: ys) hlen
        rw [mergeCompletion_eq ⟨i, n, x :: y :: ys⟩ c ms a b hab]
        rfl

/-- C2: on a Completion response applied to a conversation with at least two
messages, the merge adopts `conversationId` and `name` as the conversation's
identity, sets the trailing message's id to `responseId` and the
second-to-last message's id to `requestId`, appends the delta to the trailing
content, and preserves the message count; in particular the scenario
`Completion{delta:"Hi", requestId:10, responseId:11, conversationId:5,
name:"x"}` turns the optimistic pair into content `"Hi"` with ids `11`/`10`
under conversation id `5`. -/
theorem completion_merge_fields :
    (∀ (conv : Conversation) (c : CompletionResponse), 2 ≤ conv.messages.length →
      ∃ conv', mergeCompletion conv c = some conv' ∧
        conv'.id = some c.conversationId ∧
        conv'.name = c.name ∧
        Option.map Message.id conv'.messages.getLast? = some (some c.responseId) ∧
        Option.map Message.content conv'.messages.getLast? =
          Option.map (fun m => m.content ++ c.delta) conv.messages.getLast? ∧
        Option.map Message.id conv'.messages.dropLast.getLast? = some (some c.requestId) ∧
        conv'.messages.length = conv.messages.length) ∧
    mergeCompletion c2conv c2resp = some c2result := by
  constructor
  · intro conv c hlen
    obtain ⟨ms, a, b, hab⟩ := exists_concat_two conv.messages hlen
    refine ⟨_, mergeCompletion_eq conv c ms a b hab, rfl, rfl, ?_, ?_, ?_, ?_⟩
    · simp only [concat_two_eq, List.getLast?_concat, Option.map_some]
      simp [bumpLast]
    · rw [hab]
      simp only [concat_two_eq, List.getLast?_concat, Option.map_some]
      simp [bumpLast]
    · simp only [concat_two_eq, List.dropLast_concat, List.getLast?_concat, Option.map_some]
      simp [bumpSecondLast]
    · rw [hab]
      simp
  · decide

/-- C2 witness: the merge theorem applied to the spec's concrete scenario. -/
theorem completion_merge_fields_witness :
    2 ≤ c2conv.messages.length ∧
    (∃ conv', mergeCompletion c2conv c2resp = some conv' ∧
      conv'.id = some c2resp.conversationId ∧
      conv'.name = c2resp.name ∧
      Option.map Message.id conv'.messages.getLast? = some (some c2resp.responseId) ∧
      Option.map Message.content conv'.messages.getLast? =
        Option.map (fun m => m.content ++ c2resp.delta) c2conv.messages.getLast? ∧
      Option.map Message.id conv'.messages.dropLast.getLast? = some (some c2resp.requestId) ∧
      conv'.messages.length = c2conv.messages.length) :=
  ⟨by decide, completion_merge_fields.1 c2conv c2resp (by decide)⟩

/-- C1 counterexample: a conversation whose last (and only) message is a
pending trailing Assistant message on which applying one valid Completion
frame does not complete: no final conversation is produced at all, so the
final trailing content does not equal the concatenation of the deltas. -/
theorem applyCompletions_single_pending_fails :
    Option.map Message.message_type c1solo.messages.getLast? = some Role.Assistant ∧
    Option.map Message.id c1solo.messages.getLast? = some none ∧
    Option.map Message.content c1solo.messages.getLast? = some "" ∧
    applyCompletions c1solo [c1resp] = none := by
  decide

/-- C1 (amended with the two-message precondition): for every conversation
with at least two messages whose last message is a pending trailing Assistant
message, applying any finite sequence of Completion responses yields a final
trailing content equal to the original content concatenated with all delta
strings in receipt order. -/
theorem applyCompletions_trailing_content
    (conv : Conversation) (cs : List CompletionResponse) (lastm : Message)
    (hlen : 2 ≤ conv.messages.length)
    (hlast : conv.messages.getLast? = some lastm)
    (hrole : lastm.message_type = Role.Assistant)
    (hpending : lastm.id = none) :
    ∃ conv' lastm', applyCompletions conv cs = some conv' ∧
      conv'.messages.getLast? = some lastm' ∧
      lastm'.content = lastm.content ++ concatDeltas cs := by
  obtain ⟨conv', h1, h2, h3⟩ := applyCompletions_getLast cs conv hlen
  rw [hlast] at h3
  cases h4 : conv'.messages.getLast? with
  | none =>
    rw [h4] at h3
    simp at h3
  | some lm' =>
    rw [h4] at h3
    simp at h3
    exact ⟨conv', lm', h1, h4, h3⟩

/-- C1 witness: two deltas streamed onto a fresh optimistic pair accumulate in
receipt order. -/
theorem applyCompletions_trailing_content_witness :
    2 ≤ c1conv.messages.length ∧
    c1conv.messages.getLast? = some c1pending ∧
    c1pending.message_type = Role.Assistant ∧
    c1pending.id = none ∧
    (∃ conv' lastm', applyCompletions c1conv [c1resp, c1resp2] = some conv' ∧
      conv'.messages.getLast? = some lastm' ∧
      lastm'.content = c1pending.content ++ concatDeltas [c1resp, c1resp2]) :=
  ⟨by decide, by decide, rfl, rfl,
    applyCompletions_trailing_content c1conv [c1resp, c1resp2] c1pending
      (by decide) (by decide) rfl rfl⟩

/-- C3: submitting a non-empty turn appends exactly two messages — a User
message carrying the text and an empty-content Assistant message — with
`sequence` values `len` and `len+1`, leaves all pre-existing messages
unchanged, and transmits a Completion request carrying the two-message
extended conversation. -/
theorem sendPrompt_appends_two
    (conv : Conversation) (model : API) (data : String)
    (hdata : data.length ≠ 0) :
    ∃ u a, (sendPrompt conv model data).1.messages = conv.messages ++ [u, a] ∧
      u.message_type = Role.User ∧ u.content = data ∧
      a.message_type = Role.Assistant ∧ a.content = "" ∧
      u.sequence = (conv.messages.length : Int) ∧
      a.sequence = (conv.messages.length : Int) + 1 ∧
      (sendPrompt conv model data).2 =
        [ArrakisRequest.completion (sendPrompt conv model data).1] := by
  unfold sendPrompt
  rw [if_neg hdata]
  exact ⟨_, _, rfl, rfl, rfl, rfl, rfl, rfl, rfl, rfl⟩

/-- C3 witness: the spec's scenario of submitting "Hello" on an empty
conversation. -/
theorem sendPrompt_appends_two_witness :
    "Hello".length ≠ 0 ∧
    (∃ u a, (sendPrompt emptyConv defaultAPI "Hello").1.messages = emptyConv.messages ++ [u, a] ∧
      u.message_type = Role.User ∧ u.content = "Hello" ∧
      a.message_type = Role.Assistant ∧ a.content = "" ∧
      u.sequence = (emptyConv.messages.length : Int) ∧
      a.sequence = (emptyConv.messages.length : Int) + 1 ∧
      (sendPrompt emptyConv defaultAPI "Hello").2 =
        [ArrakisRequest.completion (sendPrompt emptyConv defaultAPI "Hello").1]) :=
  ⟨by decide, sendPrompt_appends_two emptyConv defaultAPI "Hello" (by decide)⟩

/-- C4 counterexample: on a non-empty conversation whose last message has id 5,
submitting appends messages with ids 6 and 7, not null ids. -/
theorem sendPrompt_ids_not_null :
    (sendPrompt c4conv defaultAPI "hello").1.messages.map Message.id = [some 5, some 6, some 7] ∧
    (sendPrompt c4conv defaultAPI "hello").1.messages.map Message.id ≠ [some 5, none, none] := by
  decide

/-- C4 (amended): the two appended messages have null ids only when the
conversation was empty before the submit; on a non-empty conversation they
receive the last message's id (a null id read as 0) plus 1 and plus 2. -/
theorem sendPrompt_optimistic_ids
    (conv : Conversation) (model : API) (data : String)
    (hdata : data.length ≠ 0) :
    ∃ u a, (sendPrompt conv model data).1.messages = conv.messages ++ [u, a] ∧
      (conv.messages = [] → u.id = none ∧ a.id = none) ∧
      (∀ lastm, conv.messages.getLast? = some lastm →
        u.id = some (lastm.id.getD 0 + 1) ∧ a.id = some (lastm.id.getD 0 + 2)) := by
  unfold sendPrompt
  rw [if_neg hdata]
  refine ⟨_, _, rfl, ?_, ?_⟩
  · intro hnil
    constructor <;> simp [hnil]
  · intro lastm hl
    constructor <;> simp [hl]

/-- C4 witness: the amended id assignment applied to a concrete non-empty
conversation. -/
theorem sendPrompt_optimistic_ids_witness :
    "x".length ≠ 0 ∧
    (∃ u a, (sendPrompt c4conv defaultAPI "x").1.messages = c4conv.messages ++ [u, a] ∧
      (c4conv.messages = [] → u.id = none ∧ a.id = none) ∧
      (∀ lastm, c4conv.messages.getLast? = some lastm →
        u.id = some (lastm.id.getD 0 + 1) ∧ a.id = some (lastm.id.getD 0 + 2))) :=
  ⟨by decide, sendPrompt_optimistic_ids c4conv defaultAPI "x" (by decide)⟩

/-- C6: submitting an empty-string turn leaves the conversation exactly
unchanged and transmits no request. -/
theorem sendPrompt_empty_noop (conv : Conversation) (model : API) :
    sendPrompt conv model "" = (conv, []) :=
  rfl

/-- C5 counterexample: forking a three-message conversation at cut sequence 1
leaves 2 messages (the first 1 preserved plus the reset placeholder), not the
claimed 1+2 = 3. -/
theorem forkClick_length_counterexample :
    1 < c5conv.messages.length ∧
    (forkClick c5conv 1 "" defaultAPI).1.messages.length = 1 + 1 ∧
    (forkClick c5conv 1 "" defaultAPI).1.messages.length ≠ 1 + 2 := by
  decide

/-- C5 (amended): for a conversation with a non-null id and a cut sequence `k`
designating one of its messages, the fork leaves exactly `k+1` messages — the
first `k` preserved and the message at index `k` replaced by a reset Assistant
placeholder with null id and empty content — and transmits
`Fork{conversationId, sequence}`. -/
theorem forkClick_truncate_reset
    (conv : Conversation) (k : Nat) (sysPrompt : String) (model : API) (cid : Int)
    (hid : conv.id = some cid) (hk : k < conv.messages.length) :
    ∃ m0, conv.messages[k]? = some m0 ∧
      (forkClick conv k sysPrompt model).1.messages =
        conv.messages.take k ++
          [{ id := none, message_type := Role.Assistant, content := "", api := model,
             system_prompt := sysPrompt, sequence := m0.sequence }] ∧
      (forkClick conv k sysPrompt model).1.messages.length = k + 1 ∧
      (forkClick conv k sysPrompt model).2 = [ArrakisRequest.fork cid (k : Int)] := by
  have hget : conv.messages[k]? = some conv.messages[k] := List.getElem?_eq_getElem hk
  have htake : conv.messages.take (k + 1) = conv.messages.take k ++ [conv.messages[k]] := by
    rw [List.take_succ, hget]
    rfl
  have hmain : forkClick conv k sysPrompt model =
      ({ conv with messages := conv.messages.take k ++
          [{ id := none, message_type := Role.Assistant, content := "", api := model,
             system_prompt := sysPrompt, sequence := conv.messages[k].sequence }] },
       [ArrakisRequest.fork cid (k : Int)]) := by
    unfold forkClick
    rw [hid]
    simp only [htake, List.getLast?_concat, List.dropLast_concat]
  refine ⟨conv.messages[k], hget, ?_, ?_, ?_⟩
  · rw [hmain]
  · rw [hmain]
    simp only [List.length_append, List.length_take, List.length_cons, List.length_nil]
    omega
  · rw [hmain]

/-- C5 witness: the amended fork behavior at cut sequence 1 of a three-message
conversation. -/
theorem forkClick_truncate_reset_witness :
    c5conv.id = some 1 ∧
    1 < c5conv.messages.length ∧
    (∃ m0, c5conv.messages[1]? = some m0 ∧
      (forkClick c5conv 1 "sys" defaultAPI).1.messages =
        c5conv.messages.take 1 ++
          [{ id := none, message_type := Role.Assistant, content := "", api := defaultAPI,
             system_prompt := "sys", sequence := m0.sequence }] ∧
      (forkClick c5conv 1 "sys" defaultAPI).1.messages.length = 1 + 1 ∧
      (forkClick c5conv 1 "sys" defaultAPI).2 = [ArrakisRequest.fork 1 (1 : Int)]) :=
  ⟨rfl, by decide, forkClick_truncate_reset c5conv 1 "sys" defaultAPI 1 rfl (by decide)⟩

/-- C7 counterexample: a frame whose payload method tag is `Load` — not one of
the four values the claim recognizes — changes the observable state by
replacing the loaded conversation. -/
theorem handleMessage_load_changes_state :
    jmethod loadFrame ≠ some "ConversationList" ∧
    jmethod loadFrame ≠ some "Ping" ∧
    jmethod loadFrame ≠ some "Completion" ∧
    jmethod loadFrame ≠ some "SystemPrompt" ∧
    (handleMessage st0 loadFrame).loadedConversation =
      { id := some 7, name := "x", messages := [] } ∧
    st0.loadedConversation ≠ { id := some 7, name := "x", messages := [] } := by
  decide

/-- C7 (amended): the handler recognizes the payload method tags Completion,
Ping, ConversationList, Load and SystemPrompt; any frame whose payload method
tag is none of these five leaves the whole observable state unchanged and
does not crash. -/
theorem handleMessage_unrecognized_noop (st : ClientState) (frame : JVal)
    (h1 : jmethod frame ≠ some "Completion")
    (h2 : jmethod frame ≠ some "Ping")
    (h3 : jmethod frame ≠ some "ConversationList")
    (h4 : jmethod frame ≠ some "Load")
    (h5 : jmethod frame ≠ some "SystemPrompt") :
    handleMessage st frame = st := by
  simp [handleMessage, h1, h2, h3, h4, h5]

/-- C7 witness: a frame carrying the unrecognized payload method tag `Pong`
leaves a concrete client state unchanged. -/
theorem handleMessage_unrecognized_noop_witness :
    (jmethod bogusFrame ≠ some "Completion" ∧
     jmethod bogusFrame ≠ some "Ping" ∧
     jmethod bogusFrame ≠ some "ConversationList" ∧
     jmethod bogusFrame ≠ some "Load" ∧
     jmethod bogusFrame ≠ some "SystemPrompt") ∧
    handleMessage st0 bogusFrame = st0 :=
  ⟨⟨by decide, by decide, by decide, by decide, by decide⟩,
   handleMessage_unrecognized_noop st0 bogusFrame
     (by decide) (by decide) (by decide) (by decide) (by decide)⟩

/-- C8: receiving the documented wire frame
`{method:"Ping", payload:{body:"ping"}}` while the status is not connected
leaves the status unchanged — the handler reads the method tag from
`response.payload.method`, which this frame does not carry, so no branch
fires and the promotion to `connected` that the claim (and the code's own
`ArrakisResponseSchema`) describes never happens. -/
theorem handleMessage_ping_frame_ignored :
    st0.connectionStatus = ConnStatus.disconnected ∧
    handleMessage st0 pingFrame = st0 ∧
    (handleMessage st0 pingFrame).connectionStatus ≠ ConnStatus.connected :=
  ⟨rfl, rfl, by decide⟩

/-- C9: the retry bound fails on the code — `onclose` guards the reconnect on
the `retryCount` captured when its `connect` closure was created, not on the
live counter. With configured maximum 1, a persistent-failure chain whose
callbacks captured the mount-time value 0 schedules a reconnect from every
close: after one close the live counter has already reached the maximum, the
next close still schedules a reconnect, and the counter reaches 2, exceeding
the maximum; only the reset-to-zero-on-open half of the claim holds. -/
theorem retry_counter_exceeds_maximum :
    (runSession 1 [SessionEvent.sockClose]).retryCount = 1 ∧
    closeSchedulesRetry 1 (runSession 1 [SessionEvent.sockClose]) = true ∧
    (runSession 1 [SessionEvent.sockClose, SessionEvent.sockClose]).retryCount = 2 ∧
    ¬ ((runSession 1 [SessionEvent.sockClose, SessionEvent.sockClose]).retryCount ≤ 1) ∧
    (∀ s : SessionState, (sessionStep 1 s SessionEvent.sockOpen).retryCount = 0) :=
  ⟨rfl, rfl, rfl, by decide, fun s => rfl⟩

end Arrakis
